import Mathlib

/-
Verification of the Job Orchestration and Bounded Version History subsystem
of the Arclight backend.

The development shallowly embeds the relevant parts of the source:
the per-project bounded version history (projectController.js together with
the Project model), the Docker-based worker lifecycle and job pipeline of
aiController.js, its input validation, buffer bounds, and the ownership
behaviour of the database lookups.
-/

/- ------------------------------------------------------------------
Section 1: Version History Store.

VersionRecord and Project mirror the Mongoose Project schema as used by
projectController.js (createProject builds a project from
user/title/maxVersions/originalImage/versions).
------------------------------------------------------------------ -/

structure VersionRecord where
  imageUrl : String
  publicId : String
  prompt : String
  operation : String
  width : Nat
  height : Nat
  format : String
  size : Nat
deriving DecidableEq, Repr

structure Project where
  id : Nat
  user : Nat
  title : String
  maxVersions : Nat
  originalImage : VersionRecord
  versions : List VersionRecord
deriving DecidableEq, Repr

/-- Modelled from the spec: the Mongoose model `models/Project.js` defining the
instance method `addVersion` is not among the source files (only its callers in
projectController.js and the controller README are).  Per the spec,
`append_version` inserts the record at the tail of `versions` and, if the
resulting length exceeds `maxVersions`, drops the oldest entries from the head
until the length equals `maxVersions`. -/
def addVersion (p : Project) (r : VersionRecord) : Project :=
  let vs := p.versions ++ [r]
  { p with versions := vs.drop (vs.length - p.maxVersions) }

/-- Modelled from the spec: the Mongoose model method `getLatestVersion` is not
among the source files.  Per the spec, `latest` returns the tail (last element)
of `versions`, or `originalImage` when `versions` is empty. -/
def getLatestVersion (p : Project) : VersionRecord :=
  match p.versions.getLast? with
  | some v => v
  | none => p.originalImage

/-- Folding a whole sequence of `addVersion` calls over a project, in order. -/
def addVersions (p : Project) (rs : List VersionRecord) : Project :=
  rs.foldl addVersion p

theorem addVersion_maxVersions (p : Project) (r : VersionRecord) :
    (addVersion p r).maxVersions = p.maxVersions := rfl

theorem addVersion_versions (p : Project) (r : VersionRecord) :
    (addVersion p r).versions =
      (p.versions ++ [r]).drop (p.versions.length + 1 - p.maxVersions) := by
  simp [addVersion]

theorem addVersions_nil (p : Project) : addVersions p [] = p := rfl

theorem addVersions_cons (p : Project) (r : VersionRecord)
    (rs : List VersionRecord) :
    addVersions p (r :: rs) = addVersions (addVersion p r) rs := rfl

theorem addVersion_length_le (p : Project) (r : VersionRecord) :
    (addVersion p r).versions.length ≤ p.maxVersions := by
  simp [addVersion]
  omega

/-- The versions surviving a sequence of appends form exactly the suffix of
length at most `maxVersions` of the chronological list of all records. -/
theorem addVersions_versions (rs : List VersionRecord) (p : Project)
    (h : p.versions.length ≤ p.maxVersions) :
    (addVersions p rs).versions =
      (p.versions ++ rs).drop (p.versions.length + rs.length - p.maxVersions) := by
  induction rs generalizing p with
  | nil =>
    rw [addVersions_nil]
    simp [Nat.sub_eq_zero_of_le h]
  | cons r rs ih =>
    have hle : (addVersion p r).versions.length ≤ (addVersion p r).maxVersions := by
      rw [addVersion_maxVersions]
      exact addVersion_length_le p r
    rw [addVersions_cons, ih _ hle, addVersion_maxVersions]
    have hside : p.versions.length + 1 - p.maxVersions ≤
        (p.versions ++ [r]).length := by
      simp
    have happ : (addVersion p r).versions ++ rs =
        (p.versions ++ r :: rs).drop (p.versions.length + 1 - p.maxVersions) := by
      rw [addVersion_versions, ← List.drop_append_of_le_length hside]
      congr 1
      simp
    rw [happ, List.drop_drop]
    congr 1
    have hlen : (addVersion p r).versions.length =
        p.versions.length + 1 - (p.versions.length + 1 - p.maxVersions) := by
      rw [addVersion_versions]
      simp
    rw [hlen]
    simp
    omega

theorem addVersions_length_le (rs : List VersionRecord) (p : Project)
    (h : p.versions.length ≤ p.maxVersions) :
    (addVersions p rs).versions.length ≤ p.maxVersions := by
  rw [addVersions_versions rs p h]
  simp
  omega

/-- C1: for every project and every sequence of appended records, after each
`addVersion` call the length of `versions` stays at most `maxVersions`, and the
surviving entries are exactly the at-most-`maxVersions` most recently appended
records in their original relative order (eviction drops from the head); in
particular a project created with `maxVersions = 2` and empty `versions`, after
appending v1, v2, v3 in order, has `versions = [v2, v3]`. -/
theorem addVersion_bounded_fifo_eviction (p : Project) (rs : List VersionRecord)
    (h : p.versions.length ≤ p.maxVersions) :
    (∀ k, (addVersions p (rs.take k)).versions.length ≤ p.maxVersions) ∧
    (addVersions p rs).versions =
      (p.versions ++ rs).drop (p.versions.length + rs.length - p.maxVersions) ∧
    (∀ v1 v2 v3 : VersionRecord, p.versions = [] → p.maxVersions = 2 →
      (addVersions p [v1, v2, v3]).versions = [v2, v3]) := by
  refine ⟨fun k => addVersions_length_le _ p h, addVersions_versions rs p h, ?_⟩
  intro v1 v2 v3 hv hm
  rw [addVersions_versions [v1, v2, v3] p (by rw [hv, hm]; simp), hv, hm]
  simp

/-- Concrete sample record used by witnesses. -/
def sampleVersion (n : Nat) : VersionRecord :=
  { imageUrl := "https://example/img", publicId := "pid", prompt := "",
    operation := "custom", width := n, height := 0, format := "png", size := 0 }

/-- Concrete sample project as created by createProject: empty version list. -/
def sampleProject : Project :=
  { id := 1, user := 1, title := "Untitled Project", maxVersions := 2,
    originalImage := sampleVersion 0, versions := [] }

/-- Witness for C1 at a concrete project with maxVersions = 2 and three
appended records. -/
theorem addVersion_bounded_fifo_eviction_witness :
    sampleProject.versions.length ≤ sampleProject.maxVersions ∧
    (addVersions sampleProject
      [sampleVersion 1, sampleVersion 2, sampleVersion 3]).versions =
      [sampleVersion 2, sampleVersion 3] :=
  ⟨by decide,
    (addVersion_bounded_fifo_eviction sampleProject
        [sampleVersion 1, sampleVersion 2, sampleVersion 3]
        (by decide)).2.2 (sampleVersion 1) (sampleVersion 2) (sampleVersion 3)
      rfl rfl⟩

/-- C2: `getLatestVersion` is a total function (it never fails for a project
carrying an original record): it returns the original record when `versions` is
empty, and the last element of `versions` otherwise. -/
theorem getLatestVersion_total_spec (p : Project) :
    (p.versions = [] → getLatestVersion p = p.originalImage) ∧
    (∀ h : p.versions ≠ [], getLatestVersion p = p.versions.getLast h) := by
  constructor
  · intro h
    simp [getLatestVersion, h]
  · intro h
    simp [getLatestVersion, List.getLast?_eq_getLast_of_ne_nil h]

/-- Witness for C2: on the freshly created sample project the latest version is
the original; after one append it is the appended record. -/
theorem getLatestVersion_total_spec_witness :
    getLatestVersion sampleProject = sampleProject.originalImage ∧
    getLatestVersion (addVersion sampleProject (sampleVersion 1)) =
      (addVersion sampleProject (sampleVersion 1)).versions.getLast
        (by decide) :=
  ⟨(getLatestVersion_total_spec sampleProject).1 rfl,
    (getLatestVersion_total_spec
      (addVersion sampleProject (sampleVersion 1))).2 (by decide)⟩

/- ------------------------------------------------------------------
Section 2: Worker Lifecycle Manager (aiController.js lines 22-54).

The Docker daemon is modelled as a list of containers, each with a name, an
image and a running flag.  A docker start succeeds exactly when a container
with the given name exists; a docker run creates a fresh container.
------------------------------------------------------------------ -/

structure DockerContainer where
  name : String
  image : String
  running : Bool
deriving DecidableEq, Repr

abbrev DockerState := List DockerContainer

/-- Model of the external call docker start NAME: succeeds, marking the
container running, exactly when a container with that name exists. -/
def dockerStart (s : DockerState) (containerName : String) :
    Option DockerState :=
  if s.any (fun c => c.name == containerName) then
    some (s.map (fun c =>
      if c.name == containerName then { c with running := true } else c))
  else
    none

/-- Model of the external call docker run -d --name NAME IMAGE: appends a
fresh running container. -/
def dockerRunCreate (s : DockerState) (containerName imageName : String) :
    DockerState :=
  s ++ [{ name := containerName, image := imageName, running := true }]

/-- Embedding of ensureContainerRunning (aiController.js lines 43-54): try to
docker start the existing container; if that fails because the container does
not exist, create it with docker run.  The returned string is the container
name, which is the identity every subsequent docker cp and docker exec call of
the job addresses. -/
def ensureContainerRunning (s : DockerState) (containerName imageName : String) :
    DockerState × String :=
  match dockerStart s containerName with
  | some next => (next, containerName)
  | none => (dockerRunCreate s containerName imageName, containerName)

/-- Static capability table AI_CONTAINERS (aiController.js lines 23-40); the
keys LOWLIGHT, FACE_RESTORE, ENHANCE and STYLE_TRANSFER correspond to the
relight, face-restore, enhance and style-transfer capabilities.  Background
removal runs rembg directly on the host and has no container entry. -/
inductive Capability where
  | relight
  | faceRestore
  | enhance
  | styleTransfer
  | removeBackground
deriving DecidableEq, Repr

structure ContainerConfig where
  name : String
  image : String
deriving DecidableEq, Repr

def AI_CONTAINERS : Capability → Option ContainerConfig
  | .relight =>
    some { name := "lowlight-service", image := "sameer513/lowlight-cpu-bullseye" }
  | .faceRestore =>
    some { name := "codeformer-service", image := "sameer513/codeformer_app" }
  | .enhance =>
    some { name := "nafnet-service", image := "sameer513/nafnet-image" }
  | .styleTransfer =>
    some { name := "style-transfer-service",
           image := "sameer513/pca-style-transfer-fixed" }
  | .removeBackground => none

/-- C7: two back-to-back ensureContainerRunning calls with no intervening
failure use the same container identity; when no container of that name
exists, the first call creates one whose image comes from the static
AI_CONTAINERS table, and the second call finds it and returns the same
identity. -/
theorem ensureContainerRunning_idempotent_identity
    (s : DockerState) (cap : Capability) (cfg : ContainerConfig)
    (hcfg : AI_CONTAINERS cap = some cfg) :
    (ensureContainerRunning s cfg.name cfg.image).2 =
      (ensureContainerRunning
        (ensureContainerRunning s cfg.name cfg.image).1 cfg.name cfg.image).2 ∧
    (s.any (fun c => c.name == cfg.name) = false →
      ((ensureContainerRunning s cfg.name cfg.image).1.any (fun c =>
        c.name == cfg.name && c.image == cfg.image && c.running)) = true) := by
  have hsnd : ∀ st : DockerState,
      (ensureContainerRunning st cfg.name cfg.image).2 = cfg.name := by
    intro st
    unfold ensureContainerRunning
    cases dockerStart st cfg.name <;> rfl
  constructor
  · rw [hsnd, hsnd]
  · intro habs
    simp [ensureContainerRunning, dockerStart, habs, dockerRunCreate]

/-- Witness for C7: from an empty daemon state, ensuring the relight container
twice uses the identity lowlight-service both times and records the image from
the table. -/
theorem ensureContainerRunning_idempotent_identity_witness :
    AI_CONTAINERS Capability.relight =
      some { name := "lowlight-service",
             image := "sameer513/lowlight-cpu-bullseye" } ∧
    (ensureContainerRunning [] "lowlight-service"
      "sameer513/lowlight-cpu-bullseye").2 =
      (ensureContainerRunning
        (ensureContainerRunning [] "lowlight-service"
          "sameer513/lowlight-cpu-bullseye").1 "lowlight-service"
        "sameer513/lowlight-cpu-bullseye").2 :=
  ⟨rfl,
    (ensureContainerRunning_idempotent_identity [] Capability.relight
      { name := "lowlight-service", image := "sameer513/lowlight-cpu-bullseye" }
      rfl).1⟩

/- ------------------------------------------------------------------
Section 3: Job pipeline of aiController.js.

Each controller is an async handler whose awaited statements execute
strictly in source order; a rejected await propagates through catchAsync to
the error middleware, aborting the rest of the handler.  A job is embedded
as the ordered list of its effectful steps; a step marked absorbed has its
failure caught and logged in the source (a .catch or try/catch), so a
failing absorbed step skips only its own effect.
------------------------------------------------------------------ -/

inductive JobEvent where
  | validateInput
  | dbFindImage
  | accessLocalInput
  | ensureContainer
  | copyInputToContainer
  | copyStyleToContainer
  | invokeModel
  | recordDuration
  | copyOutputFromContainer
  | cleanupContainerFiles
  | accessOutput
  | uploadToCloudinary
  | dbCreateRecord
  | sendResponse
  | responseFinish
  | timerElapsed
  | unlinkOutput
  | unlinkOriginal
  | nullLocalPathAndSave
  | unlinkStyleInput
  | nullStyleLocalPathAndSave
deriving DecidableEq, Repr

structure Step where
  event : JobEvent
  absorbed : Bool
deriving DecidableEq, Repr

/-- Runs the steps in order against a predicate choosing which events fail.
Returns the list of events whose effect completed, and the first unabsorbed
failing event, if any, which aborts the run. -/
def runJob : List Step → (JobEvent → Bool) → List JobEvent × Option JobEvent
  | [], _ => ([], none)
  | s :: ss, fails =>
    if fails s.event then
      if s.absorbed then runJob ss fails
      else ([], some s.event)
    else
      let rest := runJob ss fails
      (s.event :: rest.1, rest.2)

def jobTrace (steps : List Step) : List JobEvent :=
  steps.map Step.event

def eventIdx (t : List JobEvent) (e : JobEvent) : Nat :=
  t.findIdx (· == e)

/-- Steps of relightImage (aiController.js lines 61-207) in source order:
validation 65-71, DB lookup and localPath check 74-83, fs.access 85,
ensureContainerRunning 105, docker cp in 109, docker exec infer 114-117,
processing time recorded 119-120, docker cp out 131, in-container rm with
absorbing .catch 135-137, fs.access on the output 141, Cloudinary upload 146,
Image.create 153, response 165, finish event 184, then the finish handler:
unlink output 187, unlink original 195, localPath nulled and saved 201-204,
each with an absorbing .catch. -/
def relightSteps : List Step :=
  [⟨.validateInput, false⟩,
   ⟨.dbFindImage, false⟩,
   ⟨.accessLocalInput, false⟩,
   ⟨.ensureContainer, false⟩,
   ⟨.copyInputToContainer, false⟩,
   ⟨.invokeModel, false⟩,
   ⟨.recordDuration, false⟩,
   ⟨.copyOutputFromContainer, false⟩,
   ⟨.cleanupContainerFiles, true⟩,
   ⟨.accessOutput, false⟩,
   ⟨.uploadToCloudinary, false⟩,
   ⟨.dbCreateRecord, false⟩,
   ⟨.sendResponse, false⟩,
   ⟨.responseFinish, false⟩,
   ⟨.unlinkOutput, true⟩,
   ⟨.unlinkOriginal, true⟩,
   ⟨.nullLocalPathAndSave, true⟩]

/-- Steps of faceRestore (aiController.js lines 214-364), same shape as
relight: ensure 259, cp in 263, exec 269, duration 273, cp out 288, rm 292,
access 298, upload 303, create 310, response 322, finish 341, unlink output
344, unlink original 352, null and save 358-361. -/
def faceRestoreSteps : List Step :=
  [⟨.validateInput, false⟩,
   ⟨.dbFindImage, false⟩,
   ⟨.accessLocalInput, false⟩,
   ⟨.ensureContainer, false⟩,
   ⟨.copyInputToContainer, false⟩,
   ⟨.invokeModel, false⟩,
   ⟨.recordDuration, false⟩,
   ⟨.copyOutputFromContainer, false⟩,
   ⟨.cleanupContainerFiles, true⟩,
   ⟨.accessOutput, false⟩,
   ⟨.uploadToCloudinary, false⟩,
   ⟨.dbCreateRecord, false⟩,
   ⟨.sendResponse, false⟩,
   ⟨.responseFinish, false⟩,
   ⟨.unlinkOutput, true⟩,
   ⟨.unlinkOriginal, true⟩,
   ⟨.nullLocalPathAndSave, true⟩]

/-- Steps of enhanceImage (aiController.js lines 371-527), same shape as
relight: ensure 419, cp in 423, exec 434-437, duration 439, cp out 451, rm
455, access 461, upload 466, create 473, response 485, finish 504, unlink
output 507, unlink original 515, null and save 521-524. -/
def enhanceSteps : List Step :=
  [⟨.validateInput, false⟩,
   ⟨.dbFindImage, false⟩,
   ⟨.accessLocalInput, false⟩,
   ⟨.ensureContainer, false⟩,
   ⟨.copyInputToContainer, false⟩,
   ⟨.invokeModel, false⟩,
   ⟨.recordDuration, false⟩,
   ⟨.copyOutputFromContainer, false⟩,
   ⟨.cleanupContainerFiles, true⟩,
   ⟨.accessOutput, false⟩,
   ⟨.uploadToCloudinary, false⟩,
   ⟨.dbCreateRecord, false⟩,
   ⟨.sendResponse, false⟩,
   ⟨.responseFinish, false⟩,
   ⟨.unlinkOutput, true⟩,
   ⟨.unlinkOriginal, true⟩,
   ⟨.nullLocalPathAndSave, true⟩]

/-- Steps of styleTransfer (aiController.js lines 533-710): validation
537-543, both DB lookups and localPath checks 546-564, fs.access on both
inputs 566-567, ensure 590, cp content 594, cp style 599, exec 604-607,
duration 609, cp out 621, rm 625, access 631, upload 636, create 643,
response 655, finish 675, then unlink output 678, unlink content 686, null
content and save 691-693, unlink style 699, null style and save 704-706. -/
def styleTransferSteps : List Step :=
  [⟨.validateInput, false⟩,
   ⟨.dbFindImage, false⟩,
   ⟨.accessLocalInput, false⟩,
   ⟨.ensureContainer, false⟩,
   ⟨.copyInputToContainer, false⟩,
   ⟨.copyStyleToContainer, false⟩,
   ⟨.invokeModel, false⟩,
   ⟨.recordDuration, false⟩,
   ⟨.copyOutputFromContainer, false⟩,
   ⟨.cleanupContainerFiles, true⟩,
   ⟨.accessOutput, false⟩,
   ⟨.uploadToCloudinary, false⟩,
   ⟨.dbCreateRecord, false⟩,
   ⟨.sendResponse, false⟩,
   ⟨.responseFinish, false⟩,
   ⟨.unlinkOutput, true⟩,
   ⟨.unlinkOriginal, true⟩,
   ⟨.nullLocalPathAndSave, true⟩,
   ⟨.unlinkStyleInput, true⟩,
   ⟨.nullStyleLocalPathAndSave, true⟩]

/-- Steps of removeBackground (aiController.js lines 716-846): validation
720-726, user-filtered DB lookup and localPath check 729-738, fs.access 740,
rembg invocation on the host 767-772, processing time 781-782, fs.access and
fs.stat with empty-file check 785-791, upload 795, Image.create 802 storing
localPath = outputPath, response 815, a 5 second timer 833, and the timer
body: unlink of the input and localPath nulling, sharing one try/catch so a
failing unlink also skips the save; there is no container and the output file
is never unlinked. -/
def removeBackgroundSteps : List Step :=
  [⟨.validateInput, false⟩,
   ⟨.dbFindImage, false⟩,
   ⟨.accessLocalInput, false⟩,
   ⟨.invokeModel, false⟩,
   ⟨.recordDuration, false⟩,
   ⟨.accessOutput, false⟩,
   ⟨.uploadToCloudinary, false⟩,
   ⟨.dbCreateRecord, false⟩,
   ⟨.sendResponse, false⟩,
   ⟨.timerElapsed, false⟩,
   ⟨.unlinkOriginal, true⟩,
   ⟨.nullLocalPathAndSave, true⟩]

def relightTrace : List JobEvent := jobTrace relightSteps

def faceRestoreTrace : List JobEvent := jobTrace faceRestoreSteps

def enhanceTrace : List JobEvent := jobTrace enhanceSteps

def styleTransferTrace : List JobEvent := jobTrace styleTransferSteps

def removeBackgroundTrace : List JobEvent := jobTrace removeBackgroundSteps

/-- Cleanup deletions: removal of the staged copies inside the worker, and
removal of transient files on the local disk. -/
def isCleanupDeletion : JobEvent → Bool
  | .cleanupContainerFiles => true
  | .unlinkOutput => true
  | .unlinkOriginal => true
  | .unlinkStyleInput => true
  | _ => false

/-- Cleanup deletions touching only the local disk. -/
def isLocalDiskDeletion : JobEvent → Bool
  | .unlinkOutput => true
  | .unlinkOriginal => true
  | .unlinkStyleInput => true
  | _ => false

inductive ErrKind where
  | validation
  | notFound
  | infra
deriving DecidableEq, Repr

/-- Modelled from the spec: utils/AppError.js, utils/catchAsync.js and
utils/globalErrorHandler.js are not among the source files (app.js installs
the handler, the controllers construct AppError values).  Per the spec,
malformed input is rejected with a 400-class ValidationError, a missing
record with a 404-class NotFoundError, and any other rejected await (docker
or file-system call failure) surfaces as a 500-class InfrastructureError. -/
def classifyFailure : JobEvent → ErrKind
  | .validateInput => .validation
  | .dbFindImage => .notFound
  | _ => .infra

/-- C3 counterexample: in the successful relight job the deletion of the input
copy inside the worker (docker exec rm, line 135) executes strictly before the
response is sent (line 165), so not every cleanup deletion waits for response
completion. -/
theorem relight_container_cleanup_precedes_response :
    JobEvent.cleanupContainerFiles ∈ relightTrace ∧
    isCleanupDeletion .cleanupContainerFiles = true ∧
    eventIdx relightTrace .cleanupContainerFiles <
      eventIdx relightTrace .sendResponse := by decide

/-- C3 amended: in every successful job, the local-disk cleanup deletions (the
transient output and the local copies of the original inputs) execute strictly
after the response is sent, and for the four container capabilities also after
the response finish event; the deletion of the staged copies inside the worker,
however, executes strictly before the response is sent. -/
theorem local_cleanup_strictly_after_response :
    (∀ t ∈ [relightTrace, faceRestoreTrace, enhanceTrace, styleTransferTrace],
      ∀ e ∈ t, isLocalDiskDeletion e = true →
        eventIdx t .sendResponse < eventIdx t e ∧
        eventIdx t .responseFinish < eventIdx t e) ∧
    (∀ e ∈ removeBackgroundTrace, isLocalDiskDeletion e = true →
      eventIdx removeBackgroundTrace .sendResponse <
        eventIdx removeBackgroundTrace e) ∧
    (∀ t ∈ [relightTrace, faceRestoreTrace, enhanceTrace, styleTransferTrace],
      eventIdx t .cleanupContainerFiles < eventIdx t .sendResponse) := by decide

/-- C4 counterexample: when the pull of the output file fails (docker cp from
the container, line 131), no input-file deletion runs at all: neither the
in-worker removal nor the local unlink of the original upload appears among
the completed events, so the cleanup input-file deletion step does not still
run. -/
theorem pull_failure_skips_input_cleanup :
    JobEvent.cleanupContainerFiles ∉
      (runJob relightSteps (fun e => e == .copyOutputFromContainer)).1 ∧
    JobEvent.unlinkOriginal ∉
      (runJob relightSteps (fun e => e == .copyOutputFromContainer)).1 := by decide

/-- C4 amended: a relight job whose pull step fails aborts with that step as
the first error, which is reported as a 500-class InfrastructureError, and no
cleanup deletion of any kind executes: the rejected await propagates before
the in-worker removal, the response is never sent, and the finish handler
holding the local deletions is never registered. -/
theorem pull_failure_infra_error_no_cleanup :
    (runJob relightSteps (fun e => e == .copyOutputFromContainer)).2 =
      some .copyOutputFromContainer ∧
    classifyFailure .copyOutputFromContainer = .infra ∧
    (∀ e ∈ (runJob relightSteps (fun e => e == .copyOutputFromContainer)).1,
      isCleanupDeletion e = false) ∧
    JobEvent.sendResponse ∉
      (runJob relightSteps (fun e => e == .copyOutputFromContainer)).1 := by decide

/-- The only persisted-metadata write the cleanup handlers perform: the local
copy reference is nulled and the record saved (aiController.js lines 201-203,
358-360, 521-523, 691-705, 838-841). -/
structure ImageRecord where
  user : Nat
  publicId : String
  imageUrl : String
  format : String
  width : Nat
  height : Nat
  size : Nat
  localPath : Option String
deriving DecidableEq, Repr

def cleanupNullLocalPath (img : ImageRecord) : ImageRecord :=
  { img with localPath := none }

/-- C5 counterexample: the removeBackground job never deletes its transient
output artifact from local disk: no unlink of the output appears anywhere in
its trace (the output path is instead persisted as the new record's
localPath). -/
theorem removeBackground_cleanup_keeps_output :
    JobEvent.unlinkOutput ∉ removeBackgroundTrace := by decide

/-- C5 amended: for the relight, face-restore, enhance and style-transfer
capabilities, cleanup deletes the transient output from local disk, deletes
the local copies of the original inputs and nulls their localPath references;
for background removal, cleanup deletes only the original input and nulls its
localPath, and the output file stays on local disk.  The persisted-metadata
write of cleanup sets localPath to null and changes no other field of the
image record. -/
theorem cleanup_effects_per_capability :
    (∀ t ∈ [relightTrace, faceRestoreTrace, enhanceTrace],
      JobEvent.unlinkOutput ∈ t ∧ JobEvent.unlinkOriginal ∈ t ∧
        JobEvent.nullLocalPathAndSave ∈ t) ∧
    (JobEvent.unlinkOutput ∈ styleTransferTrace ∧
      JobEvent.unlinkOriginal ∈ styleTransferTrace ∧
      JobEvent.nullLocalPathAndSave ∈ styleTransferTrace ∧
      JobEvent.unlinkStyleInput ∈ styleTransferTrace ∧
      JobEvent.nullStyleLocalPathAndSave ∈ styleTransferTrace) ∧
    (JobEvent.unlinkOriginal ∈ removeBackgroundTrace ∧
      JobEvent.nullLocalPathAndSave ∈ removeBackgroundTrace ∧
      JobEvent.unlinkOutput ∉ removeBackgroundTrace) ∧
    (∀ img : ImageRecord,
      (cleanupNullLocalPath img).localPath = none ∧
      (cleanupNullLocalPath img).user = img.user ∧
      (cleanupNullLocalPath img).publicId = img.publicId ∧
      (cleanupNullLocalPath img).imageUrl = img.imageUrl ∧
      (cleanupNullLocalPath img).format = img.format ∧
      (cleanupNullLocalPath img).width = img.width ∧
      (cleanupNullLocalPath img).height = img.height ∧
      (cleanupNullLocalPath img).size = img.size) := by
  refine ⟨by decide, by decide, by decide, fun img => ?_⟩
  simp [cleanupNullLocalPath]

/-- C8 counterexample: when the worker invocation fails, the duration is not
recorded: the processing-time computation (line 119) sits after the awaited
invocation (line 115) with no catch, so the rejection skips it. -/
theorem invoke_failure_skips_duration :
    JobEvent.recordDuration ∉
      (runJob relightSteps (fun e => e == .invokeModel)).1 := by decide

/-- C8 amended: in every capability the duration is recorded immediately
after the invocation step and only when the invocation succeeds; a failing
invocation aborts the job before any duration is recorded. -/
theorem duration_recorded_only_on_invoke_success :
    ∀ steps ∈ [relightSteps, faceRestoreSteps, enhanceSteps,
        styleTransferSteps, removeBackgroundSteps],
      JobEvent.recordDuration ∈ (runJob steps (fun _ => false)).1 ∧
      eventIdx (jobTrace steps) .invokeModel <
        eventIdx (jobTrace steps) .recordDuration ∧
      JobEvent.recordDuration ∉
        (runJob steps (fun e => e == .invokeModel)).1 := by decide

/- ------------------------------------------------------------------
Section 4: Relight input validation (aiController.js lines 61-85).
------------------------------------------------------------------ -/

/-- Embedding of the relight brightness check (line 69): the request is
rejected with a 400 ValidationError when brightness < 0.1 or
brightness > 3.0. -/
def relightBrightnessRejected (brightness : ℚ) : Bool :=
  brightness < 1/10 || brightness > 3

/-- C6 counterexample: brightness exactly 0.1 is accepted by the code, whose
comparison is strict, while the claim requires every brightness less than or
equal to 0.1 to be rejected. -/
theorem brightness_boundary_accepted :
    relightBrightnessRejected (1/10) = false := by
  simp only [relightBrightnessRejected]
  norm_num

/-- C6 amended: a relight request is rejected with a ValidationError exactly
when brightness < 0.1 or brightness > 3.0 (the accepted interval is the
closed [0.1, 3.0]); brightness 0.05 is rejected, and the validation step sits
before the database lookup and every worker interaction, so a validation
failure aborts the job with a ValidationError before any external call. -/
theorem relight_brightness_validation_spec (b : ℚ) :
    (relightBrightnessRejected b = true ↔ (b < 1/10 ∨ 3 < b)) ∧
    relightBrightnessRejected (1/20) = true ∧
    runJob relightSteps (fun e => e == .validateInput) =
      ([], some .validateInput) ∧
    classifyFailure .validateInput = .validation ∧
    eventIdx relightTrace .validateInput < eventIdx relightTrace .dbFindImage ∧
    eventIdx relightTrace .validateInput <
      eventIdx relightTrace .ensureContainer ∧
    eventIdx relightTrace .validateInput <
      eventIdx relightTrace .copyInputToContainer ∧
    eventIdx relightTrace .validateInput < eventIdx relightTrace .invokeModel := by
  refine ⟨by simp [relightBrightnessRejected], ?_, by decide, rfl,
    by decide, by decide, by decide, by decide⟩
  simp only [relightBrightnessRejected]
  norm_num

/-- Witness for C6 at the concrete brightness 0.05 = 1/20. -/
theorem relight_brightness_validation_spec_witness :
    relightBrightnessRejected (1/20) = true ∧
    ((1 : ℚ)/20 < 1/10 ∨ 3 < (1 : ℚ)/20) :=
  ⟨(relight_brightness_validation_spec (1/20)).2.1,
    ((relight_brightness_validation_spec (1/20)).1.mp
      (relight_brightness_validation_spec (1/20)).2.1)⟩

/- ------------------------------------------------------------------
Section 5: Job executor buffer bounds.
------------------------------------------------------------------ -/

/-- The maxBuffer passed to execAsync for each capability invocation:
50 * 1024 * 1024 at aiController.js lines 116, 270, 436 and 606, and
10 * 1024 * 1024 at line 771 for the rembg invocation. -/
def maxBufferBytes : Capability → Nat
  | .removeBackground => 10 * 1024 * 1024
  | _ => 50 * 1024 * 1024

/-- Model of the Node child-process capture contract behind execAsync: output
up to maxBuffer bytes is delivered in full; output beyond it rejects the
invocation (a hard failure), it is never truncated. -/
def execCapture (bound outputBytes : Nat) : Option Nat :=
  if outputBytes ≤ bound then some outputBytes else none

/-- C9 counterexample: the background-removal invocation is bounded by
10 MB, not by the fixed 50 MB ceiling the claim asserts for every
capability. -/
theorem removeBackground_buffer_not_50MB :
    maxBufferBytes .removeBackground ≠ 50 * 1024 * 1024 ∧
    maxBufferBytes .removeBackground = 10 * 1024 * 1024 := by decide

/-- C9 amended: captured stdout and stderr are bounded by 50 MB for the
relight, face-restore, enhance and style-transfer invocations and by 10 MB
for the background-removal invocation; in every case output within the bound
is delivered unmodified and output exceeding the bound makes the invocation
fail hard rather than being truncated. -/
theorem capability_buffer_bounds (c : Capability) (n : Nat) :
    maxBufferBytes c =
      (if c = .removeBackground then 10 * 1024 * 1024 else 50 * 1024 * 1024) ∧
    (n ≤ maxBufferBytes c → execCapture (maxBufferBytes c) n = some n) ∧
    (maxBufferBytes c < n → execCapture (maxBufferBytes c) n = none) := by
  refine ⟨by cases c <;> rfl, fun h => ?_, fun h => ?_⟩
  · simp [execCapture, h]
  · simp only [execCapture, ite_eq_right_iff]
    omega

/-- Witness for C9: the relight bound is 50 MB and output one byte past it
fails hard. -/
theorem capability_buffer_bounds_witness :
    maxBufferBytes Capability.relight < 50 * 1024 * 1024 + 1 ∧
    execCapture (maxBufferBytes Capability.relight)
      (50 * 1024 * 1024 + 1) = none :=
  ⟨by decide,
    (capability_buffer_bounds Capability.relight
      (50 * 1024 * 1024 + 1)).2.2 (by decide)⟩

/- ------------------------------------------------------------------
Section 6: Ownership behaviour of the lookups.

The project controller operations (projectController.js) and the image
lookups of aiController.js are embedded as functions over an in-memory list
standing for the respective Mongoose collection.  Each takes the requesting
authenticated user, exactly as the handlers receive req.user; where the
source builds its query without a user filter, the parameter is unused.
------------------------------------------------------------------ -/

def findProjectById (db : List Project) (projectId : Nat) : Option Project :=
  db.find? (fun p => p.id == projectId)

/-- Embedding of getProjectDetails (projectController.js lines 92-120): the
project is looked up by id alone; the requesting user is never consulted. -/
def getProjectDetails (db : List Project) (user : Nat) (projectId : Nat) :
    Option Project :=
  findProjectById db projectId

/-- Embedding of addVersionToProject (projectController.js lines 128-167):
findById with no user filter, then addVersion on the found project. -/
def addVersionToProject (db : List Project) (user : Nat) (projectId : Nat)
    (r : VersionRecord) : Option (List Project) :=
  match findProjectById db projectId with
  | none => none
  | some _ =>
    some (db.map (fun p => if p.id == projectId then addVersion p r else p))

/-- Embedding of updateProjectTitle (projectController.js lines 175-205):
findByIdAndUpdate with no user filter. -/
def updateProjectTitle (db : List Project) (user : Nat) (projectId : Nat)
    (title : String) : Option (List Project) :=
  match findProjectById db projectId with
  | none => none
  | some _ =>
    some (db.map (fun p =>
      if p.id == projectId then { p with title := title } else p))

/-- Embedding of deleteProject (projectController.js lines 213-236): findById
then findByIdAndDelete, with no user filter. -/
def deleteProject (db : List Project) (user : Nat) (projectId : Nat) :
    Option (List Project) :=
  match findProjectById db projectId with
  | none => none
  | some _ => some (db.filter (fun p => p.id != projectId))

/-- Embedding of the relight image lookup (aiController.js line 74):
Image.findOne restricted by publicId only. -/
def relightFindImage (imgs : List ImageRecord) (user : Nat)
    (publicId : String) : Option ImageRecord :=
  imgs.find? (fun i => i.publicId == publicId)

/-- Embedding of the createProject image lookup (projectController.js line
18): Image.findOne restricted by publicId and the requesting user. -/
def createProjectFindImage (imgs : List ImageRecord) (user : Nat)
    (publicId : String) : Option ImageRecord :=
  imgs.find? (fun i => i.publicId == publicId && i.user == user)

/-- Embedding of the removeBackground image lookup (aiController.js line
729): Image.findOne restricted by publicId and the requesting user. -/
def removeBackgroundFindImage (imgs : List ImageRecord) (user : Nat)
    (publicId : String) : Option ImageRecord :=
  imgs.find? (fun i => i.publicId == publicId && i.user == user)

/-- Concrete image record owned by user 1, used to separate the
owner-filtered lookups from the unfiltered ones. -/
def sampleImage : ImageRecord :=
  { user := 1, publicId := "img-1", imageUrl := "https://example/img",
    format := "png", width := 1, height := 1, size := 1,
    localPath := some "/uploads/img-1.png" }

/-- C10: for any database contents and any two authenticated users,
getProjectDetails, addVersionToProject, updateProjectTitle, deleteProject and
the relight image lookup return identical results for both users, so none of
them enforces ownership; whereas the createProject and removeBackground
lookups are user-filtered: on a record owned by user 1 they succeed for user
1 and fail for user 2. -/
theorem ownership_not_enforced_outside_create_and_removeBackground
    (db : List Project) (imgs : List ImageRecord) (u1 u2 : Nat)
    (projectId : Nat) (publicId : String) (r : VersionRecord)
    (title : String) :
    getProjectDetails db u1 projectId = getProjectDetails db u2 projectId ∧
    addVersionToProject db u1 projectId r =
      addVersionToProject db u2 projectId r ∧
    updateProjectTitle db u1 projectId title =
      updateProjectTitle db u2 projectId title ∧
    deleteProject db u1 projectId = deleteProject db u2 projectId ∧
    relightFindImage imgs u1 publicId = relightFindImage imgs u2 publicId ∧
    createProjectFindImage [sampleImage] 1 "img-1" = some sampleImage ∧
    createProjectFindImage [sampleImage] 2 "img-1" = none ∧
    removeBackgroundFindImage [sampleImage] 1 "img-1" = some sampleImage ∧
    removeBackgroundFindImage [sampleImage] 2 "img-1" = none := by
  exact ⟨rfl, rfl, rfl, rfl, rfl, by decide, by decide, by decide, by decide⟩

/-- Witness for C8 at the relight step list. -/
theorem duration_recorded_only_on_invoke_success_witness :
    relightSteps ∈ [relightSteps, faceRestoreSteps, enhanceSteps,
        styleTransferSteps, removeBackgroundSteps] ∧
    (JobEvent.recordDuration ∈ (runJob relightSteps (fun _ => false)).1 ∧
      eventIdx (jobTrace relightSteps) .invokeModel <
        eventIdx (jobTrace relightSteps) .recordDuration ∧
      JobEvent.recordDuration ∉
        (runJob relightSteps (fun e => e == .invokeModel)).1) :=
  ⟨by decide,
    duration_recorded_only_on_invoke_success relightSteps (by decide)⟩
